import Mathlib

/-!
Shallow embedding of the PdfParser repository (src/file_parser.py,
src/doc_storage.py) in Lean 4.

Text is modelled as `List Char`. Python numbers appearing as font sizes and
statistics averages are modelled as `ℚ` (PyMuPDF font sizes and the derived
averages are decimal quantities; we use exact rationals). Python `int` flags
are modelled as `ℕ` (PyMuPDF span flags are non-negative bitfields) and the
`&` operation as `Nat.land` (`&&&`).

The regex whitespace class `\s` and Python `str.strip` / `str.split`
whitespace are modelled uniformly by the ASCII whitespace set
{space, tab, newline, carriage return, vertical tab, form feed}; the claims
under study only exercise this common core of the two Python notions.
-/

/-- The whitespace set used for `\s`, `str.strip()` and `str.split()`. -/
def isWS (c : Char) : Bool :=
  c = ' ' || c = '\t' || c = '\n' || c = '\r' || c = '\x0b' || c = '\x0c'

/-- Python `str.strip()`: drop leading and trailing whitespace. -/
def pyStrip (l : List Char) : List Char :=
  ((l.dropWhile isWS).reverse.dropWhile isWS).reverse

/-- Helper for `str.split()`: accumulate the current token (reversed) while
scanning; whitespace ends a token, empty tokens are not produced. -/
def splitAux : List Char → List Char → List (List Char)
  | [], [] => []
  | [], acc => [acc.reverse]
  | c :: rest, acc =>
    if isWS c then
      match acc with
      | [] => splitAux rest []
      | _ => acc.reverse :: splitAux rest []
    else splitAux rest (c :: acc)

/-- Python `str.split()` with no argument: split on runs of whitespace. -/
def pySplit (l : List Char) : List (List Char) :=
  splitAux l []

/-- The bullet glyphs of the first list pattern. -/
def isBullet (c : Char) : Bool :=
  c = '•' || c = '·' || c = '▪' || c = '▫' || c = '‣' || c = '⁃'

/-- The regex class `[a-zA-Z]`. -/
def isAsciiLetter (c : Char) : Bool :=
  ('a' ≤ c && c ≤ 'z') || ('A' ≤ c && c ≤ 'Z')

/-- The regex class `[\.\)]`. -/
def isDotParen (c : Char) : Bool :=
  c = '.' || c = ')'

/-- `re.match` of the pattern `^\s*[•·▪▫‣⁃]\s+` (prefix match). -/
def matchBulletPattern (l : List Char) : Bool :=
  match l.dropWhile isWS with
  | c1 :: c2 :: _ => isBullet c1 && isWS c2
  | _ => false

/-- `re.match` of the pattern `^\s*\d+[\.\)]\s+` (prefix match). -/
def matchNumberedPattern (l : List Char) : Bool :=
  let t := l.dropWhile isWS
  !(t.takeWhile Char.isDigit).isEmpty &&
    (match t.dropWhile Char.isDigit with
     | c1 :: c2 :: _ => isDotParen c1 && isWS c2
     | _ => false)

/-- `re.match` of the pattern `^\s*[a-zA-Z][\.\)]\s+` (prefix match). -/
def matchLetteredPattern (l : List Char) : Bool :=
  match l.dropWhile isWS with
  | c1 :: c2 :: c3 :: _ => isAsciiLetter c1 && isDotParen c2 && isWS c3
  | _ => false

/-- `re.match` of the pattern `^\s*[-\*\+]\s+` (prefix match). -/
def matchDashPattern (l : List Char) : Bool :=
  match l.dropWhile isWS with
  | c1 :: c2 :: _ => (c1 = '-' || c1 = '*' || c1 = '+') && isWS c2
  | _ => false

/-- `any(re.match(pattern, text_stripped) for pattern in list_patterns)`. -/
def matchesListPattern (l : List Char) : Bool :=
  matchBulletPattern l || matchNumberedPattern l ||
    matchLetteredPattern l || matchDashPattern l

/-- The `ElementType` enumeration of file_parser.py (member names kept). -/
inductive ElementType where
  | TITLE
  | SUBTITLE
  | SECTION
  | PARAGRAPH
  | LIST_ITEM
  | TABLE
  | IMAGE
  deriving DecidableEq, Repr, Inhabited

/-- The font-info dictionary built from a span: `name`, `size`, `flags`. -/
structure FontInfo where
  name : List Char
  size : ℚ
  flags : ℕ
  deriving DecidableEq, Repr, Inhabited

/-- `classify_items` of file_parser.py: list-pattern check first, then the
font-size/boldness decision list. -/
def classify_items (text : List Char) (font_info : FontInfo) : ElementType :=
  let text_stripped := pyStrip text
  let word_count := (pySplit text_stripped).length
  let is_bold : Bool := font_info.flags &&& 16 != 0
  if matchesListPattern text_stripped then ElementType.LIST_ITEM
  else if 16 ≤ font_info.size ∧ is_bold then ElementType.TITLE
  else if 14 ≤ font_info.size ∧ (is_bold ∨ word_count ≤ 10) then ElementType.SUBTITLE
  else if 10 ≤ font_info.size ∧ word_count ≤ 20 then ElementType.SECTION
  else ElementType.PARAGRAPH

/-! ## The statistics aggregator (`PDFExtractor._generate_statistics`) -/

/-- A bounding rectangle as stored in an element's `position` dictionary. -/
structure Position where
  x0 : ℚ
  y0 : ℚ
  x1 : ℚ
  y1 : ℚ
  deriving DecidableEq, Repr, Inhabited

/-- The `DocumentElement` dataclass. `font_info` is `none` for the image and
table elements (Python stores the empty dictionary there). -/
structure DocumentElement where
  element_type : ElementType
  content : List Char
  page_number : ℕ
  position : Position
  font_info : Option FontInfo
  deriving DecidableEq, Repr, Inhabited

/-- The `DocumentStatistics` dataclass. The two Python `defaultdict`-derived
mappings are modelled by association lists in key-insertion order, exactly as
`dict(...)` preserves them. -/
structure DocumentStatistics where
  title_count : ℕ
  section_count : ℕ
  table_count : ℕ
  image_count : ℕ
  avg_text_density_per_page : ℚ
  avg_hierarchical_depth : ℚ
  avg_paragraph_length : ℚ
  section_distribution : List (ℕ × ℕ)
  deriving DecidableEq, Repr

/-- The Python exceptions that matter for the aggregator claims. -/
inductive PyError where
  | invalidInput
  | zeroDivisionError
  deriving DecidableEq, Repr

/-- Round-half-to-even to an integer: the tie behavior of Python `round`.
(We idealize the float computation to exact rational arithmetic.) -/
def roundHalfEven (q : ℚ) : ℤ :=
  if Int.fract q < 1 / 2 then ⌊q⌋
  else if 1 / 2 < Int.fract q then ⌊q⌋ + 1
  else if ⌊q⌋ % 2 = 0 then ⌊q⌋ else ⌊q⌋ + 1

/-- Python `round(q, 2)`. -/
def round2 (q : ℚ) : ℚ :=
  (roundHalfEven (q * 100) : ℚ) / 100

/-- `defaultdict(int)` increment `d[k] += 1`: bump the entry if the key is
present, append a fresh entry with value 1 otherwise. -/
def bump (d : List (ℕ × ℕ)) (k : ℕ) : List (ℕ × ℕ) :=
  match d with
  | [] => [(k, 1)]
  | (k1, v) :: rest => if k1 = k then (k1, v + 1) :: rest else (k1, v) :: bump rest k

/-- `sum(d.values())` for an association-list dictionary. -/
def sumVals (d : List (ℕ × ℕ)) : ℕ :=
  (d.map Prod.snd).sum

/-- Membership test for the hierarchical element types
`[TITLE, SUBTITLE, SECTION]`. -/
def isHierarchical (t : ElementType) : Bool :=
  t == ElementType.TITLE || t == ElementType.SUBTITLE || t == ElementType.SECTION

/-- `sum(len(e.content) for e in elements if e.page_number == page_num)`. -/
def page_text_length (elements : List DocumentElement) (page_num : ℕ) : ℕ :=
  ((elements.filter (fun e => e.page_number == page_num)).map
    (fun e => e.content.length)).sum

/-- The record computed by `_generate_statistics` once the density division
has succeeded (the function body apart from the possible `ZeroDivisionError`;
all divisions but the density one are explicitly guarded in the source). -/
def generate_statistics_core (total_pages : ℕ) (elements : List DocumentElement) :
    DocumentStatistics :=
  let title_count := elements.countP (fun e => e.element_type == ElementType.TITLE)
  let section_count := elements.countP (fun e => e.element_type == ElementType.SECTION)
  let table_count := elements.countP (fun e => e.element_type == ElementType.TABLE)
  let image_count := elements.countP (fun e => e.element_type == ElementType.IMAGE)
  let text_density_per_page :=
    (List.range total_pages).map (fun i => page_text_length elements (i + 1))
  let avg_text_density_per_page :=
    round2 ((text_density_per_page.sum : ℚ) / (text_density_per_page.length : ℚ))
  let hierarchical_elements := elements.filter (fun e => isHierarchical e.element_type)
  let hierarchical_counts_per_page :=
    hierarchical_elements.foldl (fun d e => bump d e.page_number) []
  let avg_hierarchical_depth : ℚ :=
    if hierarchical_counts_per_page.length ≠ 0 then
      round2 ((sumVals hierarchical_counts_per_page : ℚ) /
        (hierarchical_counts_per_page.length : ℚ))
    else 0
  let paragraphs := elements.filter (fun e => e.element_type == ElementType.PARAGRAPH)
  let avg_paragraph_length : ℚ :=
    if paragraphs ≠ [] then
      round2 (((paragraphs.map (fun p => (pySplit p.content).length)).sum : ℚ) /
        (paragraphs.length : ℚ))
    else 0
  let section_distribution := elements.foldl
    (fun d e => if e.element_type == ElementType.SECTION then bump d e.page_number else d) []
  { title_count := title_count
    section_count := section_count
    table_count := table_count
    image_count := image_count
    avg_text_density_per_page := avg_text_density_per_page
    avg_hierarchical_depth := avg_hierarchical_depth
    avg_paragraph_length := avg_paragraph_length
    section_distribution := section_distribution }

/-- `PDFExtractor._generate_statistics`: with `total_pages = 0` the density
list is empty and `sum(...)/len(...)` raises `ZeroDivisionError` (there is no
`pageCount` validation in the source); otherwise the record is computed. -/
def generate_statistics (total_pages : ℕ) (elements : List DocumentElement) :
    Except PyError DocumentStatistics :=
  if total_pages = 0 then Except.error PyError.zeroDivisionError
  else Except.ok (generate_statistics_core total_pages elements)

/-! ## Page element extraction (`PDFExtractor._extract_page_elements`) -/

/-- One text run (`span`) of `page.get_text("dict")`. -/
structure Span where
  text : List Char
  font : List Char
  size : ℚ
  flags : ℕ
  deriving DecidableEq, Repr

/-- One line of a text block. -/
structure Line where
  spans : List Span
  deriving DecidableEq, Repr

/-- A raw (not yet rounded) bounding rectangle. -/
structure Rect where
  x0 : ℚ
  y0 : ℚ
  x1 : ℚ
  y1 : ℚ
  deriving DecidableEq, Repr

/-- A block of `page.get_text("dict")["blocks"]`: only text blocks carry a
`"lines"` key (`lines = some …`); other blocks are skipped by the source. -/
structure Block where
  bbox : Rect
  lines : Option (List Line)
  deriving DecidableEq, Repr

/-- An entry of `page.get_images(full=True)` with its
`page.get_image_bbox` rectangle. -/
structure PageImage where
  rect : Rect
  deriving DecidableEq, Repr

/-- An entry of `page.find_tables()`: bounding box and extracted cell grid
(`None` cells are `none`). -/
structure PageTable where
  bbox : Rect
  cells : List (List (Option (List Char)))
  deriving DecidableEq, Repr

/-- The per-page primitives handed over by the rendering engine, in their
emitted order. -/
structure Page where
  blocks : List Block
  images : List PageImage
  tables : List PageTable
  deriving DecidableEq, Repr

/-- The concatenation `text_content += span["text"]` over all lines and
spans of a block, in emission order. -/
def block_text (lines : List Line) : List Char :=
  (((lines.map Line.spans).flatten).map Span.text).flatten

/-- The `if not font_info` logic: the font info of the first span of the
block (in line, then span order), if any span exists. -/
def first_font (lines : List Line) : Option FontInfo :=
  match (lines.map Line.spans).flatten with
  | [] => none
  | s :: _ => some ⟨s.font, s.size, s.flags⟩

/-- Python `round(q, 4)` as used on the block bounding box. -/
def round4 (q : ℚ) : ℚ :=
  (roundHalfEven (q * 10000) : ℚ) / 10000

/-- The `position` dictionary of a text block: each coordinate rounded to 4
decimal places. -/
def round_position (r : Rect) : Position :=
  ⟨round4 r.x0, round4 r.y0, round4 r.x1, round4 r.y1⟩

/-- Python `s.replace(old, new)` for a single-character pattern `old`. -/
def pyReplaceChar (old : Char) (new : List Char) (l : List Char) : List Char :=
  l.flatMap (fun c => if c = old then new else [c])

/-- The stored-content normalization of the source,
`text_content.strip().replace("\n", " ").replace("\t", "")`:
strip, then newline to a space, then tab to the EMPTY string. -/
def clean_content (t : List Char) : List Char :=
  pyReplaceChar '\t' [] (pyReplaceChar '\n' [' '] (pyStrip t))

/-- The content normalization as the spec words it: strip, then replace
every newline and every tab character by a single space. Kept separate from
`clean_content` (the source) so the two can be compared. -/
def clean_content_spec (t : List Char) : List Char :=
  pyReplaceChar '\t' [' '] (pyReplaceChar '\n' [' '] (pyStrip t))

/-- The body of the text-block loop: skip non-text blocks, skip blocks whose
stripped text is empty (which includes blocks with no spans, whose collected
text is empty), otherwise classify and build the element. -/
def text_block_element (page_number : ℕ) (b : Block) : Option DocumentElement :=
  match b.lines with
  | none => none
  | some ls =>
    let text_content := block_text ls
    match first_font ls with
    | none => none
    | some fi =>
      if (pyStrip text_content).isEmpty then none
      else some
        { element_type := classify_items text_content fi
          content := clean_content text_content
          page_number := page_number
          position := round_position b.bbox
          font_info := some fi }

/-- The element built for image number `img_index` of a page: synthetic
content `Image_{page_number}_{img_index}`, raw bbox, empty font info. -/
def image_element (page_number : ℕ) (img_index : ℕ) (img : PageImage) : DocumentElement :=
  { element_type := ElementType.IMAGE
    content := ['I', 'm', 'a', 'g', 'e', '_'] ++ Nat.toDigits 10 page_number ++
      '_' :: Nat.toDigits 10 img_index
    page_number := page_number
    position := ⟨img.rect.x0, img.rect.y0, img.rect.x1, img.rect.y1⟩
    font_info := none }

/-- The element built for a table: `None` cells become empty strings, rows
are tab-joined and then newline-joined; raw bbox; empty font info. -/
def table_element (page_number : ℕ) (t : PageTable) : DocumentElement :=
  let clean_table_data := t.cells.map (fun row => row.map (fun cell => cell.getD []))
  { element_type := ElementType.TABLE
    content := List.intercalate ['\n']
      (clean_table_data.map (fun row => List.intercalate ['\t'] row))
    page_number := page_number
    position := ⟨t.bbox.x0, t.bbox.y0, t.bbox.x1, t.bbox.y1⟩
    font_info := none }

/-- `PDFExtractor._extract_page_elements`: the three source loops, each
appending to the running `elements` list exactly as the Python code does. -/
def extract_page_elements (page : Page) (page_number : ℕ) : List DocumentElement :=
  let elements := page.blocks.foldl
    (fun acc b => acc ++ (text_block_element page_number b).toList) []
  let elements := page.images.enum.foldl
    (fun acc p => acc ++ [image_element page_number p.1 p.2]) elements
  page.tables.foldl (fun acc t => acc ++ [table_element page_number t]) elements

/-- `DocumentStorage.get_document_elements` without filters: the stored rows
(insertion order = extraction order) are returned by the SQL query
`ORDER BY e.page_number, e.position_y0 DESC`, modelled as a stable insertion
sort by ascending page number and descending `y0`. -/
def insertRow (a : DocumentElement) : List DocumentElement → List DocumentElement
  | [] => [a]
  | b :: rest =>
    if a.page_number < b.page_number ∨
        (a.page_number = b.page_number ∧ b.position.y0 ≤ a.position.y0) then
      a :: b :: rest
    else b :: insertRow a rest

/-- The row order produced by the `get_document_elements` query. -/
def get_document_elements : List DocumentElement → List DocumentElement
  | [] => []
  | a :: rest => insertRow a (get_document_elements rest)

/-- The page numbers of the hierarchical elements, with multiplicity, in
document order (used to state the hierarchical-depth claim). -/
def hier_pages (elements : List DocumentElement) : List ℕ :=
  (elements.filter (fun e => isHierarchical e.element_type)).map (fun e => e.page_number)

/-! ## Supporting lemmas -/

theorem sumVals_cons (kv : ℕ × ℕ) (d : List (ℕ × ℕ)) :
    sumVals (kv :: d) = kv.2 + sumVals d := by
  simp [sumVals]

theorem sumVals_bump (d : List (ℕ × ℕ)) (k : ℕ) :
    sumVals (bump d k) = sumVals d + 1 := by
  induction d with
  | nil => simp [bump, sumVals]
  | cons kv tl ih =>
    obtain ⟨k1, v⟩ := kv
    by_cases h : k1 = k
    · subst h
      simp [bump, sumVals_cons]
      omega
    · simp [bump, h, sumVals_cons, ih]
      omega

theorem bump_keys (d : List (ℕ × ℕ)) (k : ℕ) :
    (bump d k).map Prod.fst =
      if k ∈ d.map Prod.fst then d.map Prod.fst else d.map Prod.fst ++ [k] := by
  induction d with
  | nil => simp [bump]
  | cons kv tl ih =>
    obtain ⟨k1, v⟩ := kv
    by_cases h : k1 = k
    · subst h
      simp [bump]
    · by_cases hm : k ∈ tl.map Prod.fst <;>
        simp [bump, h, ih, hm, List.mem_cons, Ne.symm h]

theorem foldl_bump_sumVals (l : List ℕ) (d : List (ℕ × ℕ)) :
    sumVals (l.foldl bump d) = sumVals d + l.length := by
  induction l generalizing d with
  | nil => simp
  | cons k tl ih =>
    rw [List.foldl_cons, ih, sumVals_bump]
    simp
    omega

theorem foldl_bump_keys_toFinset (l : List ℕ) (d : List (ℕ × ℕ)) :
    ((l.foldl bump d).map Prod.fst).toFinset =
      (d.map Prod.fst).toFinset ∪ l.toFinset := by
  induction l generalizing d with
  | nil => simp
  | cons k tl ih =>
    rw [List.foldl_cons, ih, bump_keys]
    by_cases hm : k ∈ d.map Prod.fst
    · rw [if_pos hm]
      ext x
      simp only [Finset.mem_union, List.mem_toFinset, List.mem_cons]
      constructor
      · rintro (h1 | h1)
        · exact Or.inl h1
        · exact Or.inr (Or.inr h1)
      · rintro (h1 | rfl | h1)
        · exact Or.inl h1
        · exact Or.inl hm
        · exact Or.inr h1
    · rw [if_neg hm]
      ext x
      simp only [Finset.mem_union, List.mem_toFinset, List.toFinset_append,
        List.mem_append, List.mem_cons, List.mem_singleton]
      tauto

theorem foldl_bump_keys_nodup (l : List ℕ) (d : List (ℕ × ℕ))
    (h : (d.map Prod.fst).Nodup) : ((l.foldl bump d).map Prod.fst).Nodup := by
  induction l generalizing d with
  | nil => exact h
  | cons k tl ih =>
    rw [List.foldl_cons]
    apply ih
    rw [bump_keys]
    by_cases hm : k ∈ d.map Prod.fst
    · rwa [if_pos hm]
    · rw [if_neg hm]
      simp [List.nodup_append, h, hm]

theorem foldl_bump_length (l : List ℕ) :
    (l.foldl bump []).length = l.toFinset.card := by
  have h1 : ((l.foldl bump []).map Prod.fst).Nodup :=
    foldl_bump_keys_nodup l [] (by simp)
  have h2 := foldl_bump_keys_toFinset l []
  simp only [List.map_nil, List.toFinset_nil, Finset.empty_union] at h2
  calc (l.foldl bump []).length
      = ((l.foldl bump []).map Prod.fst).length := by simp
    _ = ((l.foldl bump []).map Prod.fst).dedup.length := by rw [h1.dedup]
    _ = ((l.foldl bump []).map Prod.fst).toFinset.card := (List.card_toFinset _).symm
    _ = l.toFinset.card := by rw [h2]

theorem toFinset_sum_count (l : List ℕ) :
    ∑ p in l.toFinset, l.count p = l.length := by
  simp

theorem bump_vals_pos :
    ∀ (d : List (ℕ × ℕ)) (k : ℕ), (∀ kv ∈ d, 1 ≤ kv.2) →
      ∀ kv ∈ bump d k, 1 ≤ kv.2 := by
  intro d
  induction d with
  | nil =>
    intro k _ kv hkv
    simp [bump] at hkv
    simp [hkv]
  | cons hd tl ih =>
    obtain ⟨k1, v⟩ := hd
    intro k h kv hkv
    by_cases hk : k1 = k
    · subst hk
      simp [bump] at hkv
      rcases hkv with rfl | h1
      · simp
      · exact h kv (by simp [h1])
    · simp [bump, hk] at hkv
      rcases hkv with rfl | h1
      · exact h (k1, v) (by simp)
      · exact ih k (fun kv2 hkv2 => h kv2 (by simp [hkv2])) kv h1

theorem foldl_bump_vals_pos (l : List ℕ) (d : List (ℕ × ℕ))
    (h : ∀ kv ∈ d, 1 ≤ kv.2) : ∀ kv ∈ l.foldl bump d, 1 ≤ kv.2 := by
  induction l generalizing d with
  | nil => exact h
  | cons k tl ih => exact ih (bump d k) (bump_vals_pos d k h)

theorem foldl_section_bump (l : List DocumentElement) (d : List (ℕ × ℕ)) :
    l.foldl
        (fun d2 e =>
          if e.element_type == ElementType.SECTION then bump d2 e.page_number else d2) d =
      ((l.filter (fun e => e.element_type == ElementType.SECTION)).map
        (fun e => e.page_number)).foldl bump d := by
  induction l generalizing d with
  | nil => rfl
  | cons e tl ih =>
    cases hf : (e.element_type == ElementType.SECTION) <;>
      simp [List.foldl_cons, List.filter_cons, hf, ih, -beq_iff_eq]

theorem sum_range_map_succ (f : ℕ → ℕ) (n : ℕ) :
    ((List.range n).map (fun i => f (i + 1))).sum = ∑ p in Finset.Icc 1 n, f p := by
  induction n with
  | zero => simp
  | succ m ih =>
    rw [List.range_succ, List.map_append, List.sum_append, ih,
      Finset.sum_Icc_succ_top (by omega)]
    simp

theorem foldl_append_map {α β : Type} (f : α → β) (l : List α) (init : List β) :
    l.foldl (fun acc x => acc ++ [f x]) init = init ++ l.map f := by
  induction l generalizing init with
  | nil => simp
  | cons x tl ih => simp [List.foldl_cons, ih]

theorem foldl_append_filterMap {α β : Type} (f : α → Option β) (l : List α)
    (init : List β) :
    l.foldl (fun acc x => acc ++ (f x).toList) init = init ++ l.filterMap f := by
  induction l generalizing init with
  | nil => simp
  | cons x tl ih =>
    cases hf : f x <;> simp [List.foldl_cons, hf, ih, List.filterMap_cons]

/-- The three extraction loops produce exactly: text-block elements in block
order, then image elements in image order, then table elements in table
order. -/
theorem extract_page_elements_eq (page : Page) (n : ℕ) :
    extract_page_elements page n =
      page.blocks.filterMap (text_block_element n) ++
        page.images.enum.map (fun p => image_element n p.1 p.2) ++
        page.tables.map (table_element n) := by
  unfold extract_page_elements
  simp only [foldl_append_filterMap, foldl_append_map, List.nil_append,
    List.append_assoc]

/-! ## Claim theorems -/

/-- C1: whenever the stripped text matches one of the four list-marker
patterns, `classify_items` returns `LIST_ITEM`, for every font info (any
size, any flags). -/
theorem C1_list_pattern_precedence (text : List Char) (fi : FontInfo)
    (h : matchesListPattern (pyStrip text) = true) :
    classify_items text fi = ElementType.LIST_ITEM := by
  simp [classify_items, h]

/-- Witness for C1 at the concrete input `"1. a"` with a large bold font. -/
theorem C1_list_pattern_precedence_witness :
    matchesListPattern (pyStrip ['1', '.', ' ', 'a']) = true ∧
      classify_items ['1', '.', ' ', 'a'] ⟨[], 20, 16⟩ = ElementType.LIST_ITEM :=
  ⟨by decide, C1_list_pattern_precedence ['1', '.', ' ', 'a'] ⟨[], 20, 16⟩ (by decide)⟩

/-- C2: for non-list text, font size ≥ 16 with the bold bit (flags & 16) set
yields `TITLE`; in particular size exactly 16 bold is a `TITLE`, while size
15.99 bold with a 5-word text falls through to `SUBTITLE`. -/
theorem C2_title_rule_and_boundary :
    (∀ (text : List Char) (fi : FontInfo),
        matchesListPattern (pyStrip text) = false →
        16 ≤ fi.size → fi.flags &&& 16 ≠ 0 →
        classify_items text fi = ElementType.TITLE) ∧
    classify_items ['a', ' ', 'b', ' ', 'c', ' ', 'd', ' ', 'e'] ⟨[], 16, 16⟩ =
      ElementType.TITLE ∧
    classify_items ['a', ' ', 'b', ' ', 'c', ' ', 'd', ' ', 'e'] ⟨[], 1599/100, 16⟩ =
      ElementType.SUBTITLE ∧
    (pySplit (pyStrip ['a', ' ', 'b', ' ', 'c', ' ', 'd', ' ', 'e'])).length = 5 := by
  refine ⟨?_, by decide, ?_, by decide⟩
  · intro text fi h1 h2 h3
    have hb : (fi.flags &&& 16 != 0) = true := by simpa using h3
    simp [classify_items, h1, hb, h2]
  · have hp : matchesListPattern (pyStrip ['a', ' ', 'b', ' ', 'c', ' ', 'd', ' ', 'e']) =
        false := by decide
    have hw : (pySplit (pyStrip ['a', ' ', 'b', ' ', 'c', ' ', 'd', ' ', 'e'])).length = 5 := by
      decide
    simp [classify_items, hp, hw]
    norm_num

/-- Witness for C2: the universally quantified title rule applied at the
concrete input `"hi"` with size 16 and flags 16. -/
theorem C2_title_rule_and_boundary_witness :
    matchesListPattern (pyStrip ['h', 'i']) = false ∧ (16 : ℚ) ≤ 16 ∧
      (16 : ℕ) &&& 16 ≠ 0 ∧
      classify_items ['h', 'i'] ⟨[], 16, 16⟩ = ElementType.TITLE :=
  ⟨by decide, by decide, by decide,
    C2_title_rule_and_boundary.1 ['h', 'i'] ⟨[], 16, 16⟩ (by decide) (by decide) (by decide)⟩


/-- C3 (amended): invoked with a page count of 0, the statistics aggregation
raises the division fault `ZeroDivisionError` (`sum(...)/len(...)` over the
empty per-page density list), for every element list; the source performs no
`pageCount` validation at all. -/
theorem C3_zero_page_count_division_fault (elements : List DocumentElement) :
    generate_statistics 0 elements = Except.error PyError.zeroDivisionError := rfl

/-- C3 counterexample: at page count 0 the aggregation does NOT fail with an
explicit `InvalidInput` error, contrary to the claim. -/
theorem C3_counterexample :
    generate_statistics 0 [] ≠ Except.error PyError.invalidInput := by
  simp [generate_statistics]

/-- C7: aggregating an empty element list with page count 3 yields all
counts 0, all averages 0, and an empty section distribution, without
fault. -/
theorem C7_empty_elements_aggregate :
    generate_statistics 3 [] = Except.ok
      { title_count := 0, section_count := 0, table_count := 0, image_count := 0,
        avg_text_density_per_page := 0, avg_hierarchical_depth := 0,
        avg_paragraph_length := 0, section_distribution := [] } := by
  have h0 : round2 (0 : ℚ) = 0 := by
    unfold round2 roundHalfEven
    norm_num
  simp [generate_statistics, generate_statistics_core, page_text_length,
    List.range_succ, h0]

/-- C9: the aggregation is deterministic; equal element lists and equal page
counts yield equal `DocumentStatistics` results in every field. -/
theorem C9_aggregation_deterministic (n1 n2 : ℕ) (e1 e2 : List DocumentElement)
    (hn : n1 = n2) (he : e1 = e2) :
    generate_statistics n1 e1 = generate_statistics n2 e2 := by
  rw [hn, he]

/-- Witness for C9 at page count 3 and the empty element list. -/
theorem C9_aggregation_deterministic_witness :
    (3 : ℕ) = 3 ∧ ([] : List DocumentElement) = [] ∧
      generate_statistics 3 [] = generate_statistics 3 [] :=
  ⟨rfl, rfl, C9_aggregation_deterministic 3 3 [] [] rfl rfl⟩

/-- C5: for page count ≥ 1, the density average is the sum over pages
1..pageCount of the total content length on that page (absent pages
contribute 0 via the empty filter), divided by the page count and rounded to
2 decimal places. -/
theorem C5_text_density_average (n : ℕ) (elements : List DocumentElement)
    (s : DocumentStatistics) (hn : 1 ≤ n)
    (h : generate_statistics n elements = Except.ok s) :
    s.avg_text_density_per_page =
      round2 (((∑ p in Finset.Icc 1 n, page_text_length elements p : ℕ) : ℚ) /
        (n : ℚ)) := by
  have hn0 : n ≠ 0 := by omega
  have hs : s = generate_statistics_core n elements := by
    simp [generate_statistics, hn0] at h
    exact h.symm
  subst hs
  simp only [generate_statistics_core]
  rw [List.length_map, List.length_range, sum_range_map_succ (page_text_length elements) n]

/-- Witness for C5: one section element on page 2, page count 5. -/
theorem C5_text_density_average_witness :
    1 ≤ 5 ∧
      generate_statistics 5 [⟨ElementType.SECTION, ['a'], 2, ⟨0, 0, 0, 0⟩, none⟩] =
        Except.ok (generate_statistics_core 5
          [⟨ElementType.SECTION, ['a'], 2, ⟨0, 0, 0, 0⟩, none⟩]) ∧
      (generate_statistics_core 5
          [⟨ElementType.SECTION, ['a'], 2, ⟨0, 0, 0, 0⟩, none⟩]).avg_text_density_per_page =
        round2 (((∑ p in Finset.Icc 1 5,
          page_text_length [⟨ElementType.SECTION, ['a'], 2, ⟨0, 0, 0, 0⟩, none⟩] p : ℕ) : ℚ) /
          (5 : ℚ)) :=
  ⟨by decide, rfl, C5_text_density_average 5 _ _ (by decide) rfl⟩

/-- C6: the hierarchical-depth average is taken over exactly the pages that
contain at least one hierarchical element — each contributing its count of
hierarchical elements — rounded to 2 decimal places, and is 0 (without any
division) when no hierarchical element exists. -/
theorem C6_hierarchical_depth_average (n : ℕ) (elements : List DocumentElement)
    (s : DocumentStatistics) (h : generate_statistics n elements = Except.ok s) :
    s.avg_hierarchical_depth =
      if hier_pages elements = [] then 0
      else
        round2 (((∑ p in (hier_pages elements).toFinset,
            (hier_pages elements).count p : ℕ) : ℚ) /
          (((hier_pages elements).toFinset.card : ℕ) : ℚ)) := by
  have hn0 : n ≠ 0 := by
    intro h0
    subst h0
    simp [generate_statistics] at h
  have hs : s = generate_statistics_core n elements := by
    simp [generate_statistics, hn0] at h
    exact h.symm
  subst hs
  have hfold :
      (elements.filter (fun e => isHierarchical e.element_type)).foldl
          (fun d e => bump d e.page_number) ([] : List (ℕ × ℕ)) =
        (hier_pages elements).foldl bump [] := by
    rw [hier_pages, List.foldl_map]
  simp only [generate_statistics_core, hfold]
  rw [foldl_bump_length, foldl_bump_sumVals]
  by_cases hpl : hier_pages elements = []
  · simp [hpl]
  · have hcard : (hier_pages elements).toFinset.card ≠ 0 := by
      simp [Finset.card_eq_zero, List.toFinset_eq_empty_iff, hpl]
    rw [if_pos hcard, if_neg hpl]
    congr 1
    simp [sumVals, toFinset_sum_count]

/-- Witness for C6: one section element on page 2, page count 5. -/
theorem C6_hierarchical_depth_average_witness :
    generate_statistics 5 [⟨ElementType.SECTION, ['a'], 2, ⟨0, 0, 0, 0⟩, none⟩] =
      Except.ok (generate_statistics_core 5
        [⟨ElementType.SECTION, ['a'], 2, ⟨0, 0, 0, 0⟩, none⟩]) ∧
    (generate_statistics_core 5
        [⟨ElementType.SECTION, ['a'], 2, ⟨0, 0, 0, 0⟩, none⟩]).avg_hierarchical_depth =
      if hier_pages [⟨ElementType.SECTION, ['a'], 2, ⟨0, 0, 0, 0⟩, none⟩] = [] then 0
      else
        round2 (((∑ p in
            (hier_pages [⟨ElementType.SECTION, ['a'], 2, ⟨0, 0, 0, 0⟩, none⟩]).toFinset,
            (hier_pages [⟨ElementType.SECTION, ['a'], 2, ⟨0, 0, 0, 0⟩, none⟩]).count p : ℕ) : ℚ) /
          (((hier_pages [⟨ElementType.SECTION, ['a'], 2, ⟨0, 0, 0, 0⟩, none⟩]).toFinset.card : ℕ) : ℚ)) :=
  ⟨rfl, C6_hierarchical_depth_average 5 _ _ rfl⟩

/-- C10: every value stored in the section distribution is at least 1 (no
zero-valued page keys appear), and the section count equals the sum of the
distribution's values. -/
theorem C10_section_distribution_invariant (n : ℕ) (elements : List DocumentElement)
    (s : DocumentStatistics) (h : generate_statistics n elements = Except.ok s) :
    (∀ kv ∈ s.section_distribution, 1 ≤ kv.2) ∧
      sumVals s.section_distribution = s.section_count := by
  have hn0 : n ≠ 0 := by
    intro h0
    subst h0
    simp [generate_statistics] at h
  have hs : s = generate_statistics_core n elements := by
    simp [generate_statistics, hn0] at h
    exact h.symm
  subst hs
  simp only [generate_statistics_core, foldl_section_bump]
  constructor
  · exact foldl_bump_vals_pos _ [] (by simp)
  · rw [foldl_bump_sumVals]
    simp [sumVals, List.countP_eq_length_filter]

/-- Witness for C10: one section element on page 2, page count 5. -/
theorem C10_section_distribution_invariant_witness :
    generate_statistics 5 [⟨ElementType.SECTION, ['a'], 2, ⟨0, 0, 0, 0⟩, none⟩] =
      Except.ok (generate_statistics_core 5
        [⟨ElementType.SECTION, ['a'], 2, ⟨0, 0, 0, 0⟩, none⟩]) ∧
    ((∀ kv ∈ (generate_statistics_core 5
        [⟨ElementType.SECTION, ['a'], 2, ⟨0, 0, 0, 0⟩, none⟩]).section_distribution,
        1 ≤ kv.2) ∧
      sumVals (generate_statistics_core 5
        [⟨ElementType.SECTION, ['a'], 2, ⟨0, 0, 0, 0⟩, none⟩]).section_distribution =
        (generate_statistics_core 5
          [⟨ElementType.SECTION, ['a'], 2, ⟨0, 0, 0, 0⟩, none⟩]).section_count) :=
  ⟨rfl, C10_section_distribution_invariant 5 _ _ rfl⟩

/-- C4 (amended): every stored text element's content equals the block's
concatenated run text, stripped, with every newline replaced by a single
space and every tab character REMOVED (replaced by the empty string, not by
a space). Text elements are exactly those carrying font info. -/
theorem C4_text_content_normalization (page : Page) (n : ℕ) (e : DocumentElement)
    (he : e ∈ extract_page_elements page n) (hf : e.font_info.isSome) :
    ∃ b ∈ page.blocks, ∃ ls, b.lines = some ls ∧
      e.content =
        pyReplaceChar '\t' [] (pyReplaceChar '\n' [' '] (pyStrip (block_text ls))) := by
  rw [extract_page_elements_eq] at he
  rcases List.mem_append.mp he with he12 | he3
  · rcases List.mem_append.mp he12 with he1 | he2
    · obtain ⟨b, hb, hsome⟩ := List.mem_filterMap.mp he1
      refine ⟨b, hb, ?_⟩
      cases hlines : b.lines with
      | none => simp [text_block_element, hlines] at hsome
      | some ls =>
        refine ⟨ls, rfl, ?_⟩
        cases hff : first_font ls with
        | none => simp [text_block_element, hlines, hff] at hsome
        | some fi =>
          cases hemp : (pyStrip (block_text ls)).isEmpty with
          | true => simp [text_block_element, hlines, hff, hemp] at hsome
          | false =>
            simp [text_block_element, hlines, hff, hemp] at hsome
            rw [← hsome]
            rfl
    · obtain ⟨p, hp, rfl⟩ := List.mem_map.mp he2
      simp [image_element] at hf
  · obtain ⟨t, ht, rfl⟩ := List.mem_map.mp he3
    simp [table_element] at hf

/-- C4 counterexample: a block whose concatenated run text is `"a\tb"` is
stored as `"ab"` (tab removed), while the spec's normalization (tab becomes
a single space) yields `"a b"`. -/
theorem C4_counterexample :
    (extract_page_elements
        ⟨[⟨⟨0, 0, 1, 1⟩, some [⟨[⟨['a', '\t', 'b'], ['f'], 12, 0⟩]⟩]⟩], [], []⟩ 1).map
        (fun e => e.content) = [['a', 'b']] ∧
      clean_content_spec ['a', '\t', 'b'] = ['a', ' ', 'b'] ∧
      (['a', 'b'] : List Char) ≠ ['a', ' ', 'b'] :=
  ⟨by decide, by decide, by decide⟩

/-- Witness for C4 applied to the first element extracted from a concrete
one-block page. -/
theorem C4_text_content_normalization_witness :
    ((extract_page_elements
        ⟨[⟨⟨0, 0, 1, 1⟩, some [⟨[⟨['a', '\t', 'b'], ['f'], 12, 0⟩]⟩]⟩], [], []⟩ 1).head! ∈
      extract_page_elements
        ⟨[⟨⟨0, 0, 1, 1⟩, some [⟨[⟨['a', '\t', 'b'], ['f'], 12, 0⟩]⟩]⟩], [], []⟩ 1) ∧
    (extract_page_elements
        ⟨[⟨⟨0, 0, 1, 1⟩, some [⟨[⟨['a', '\t', 'b'], ['f'], 12, 0⟩]⟩]⟩], [], []⟩ 1).head!.font_info.isSome ∧
    ∃ b ∈ (Page.mk [⟨⟨0, 0, 1, 1⟩, some [⟨[⟨['a', '\t', 'b'], ['f'], 12, 0⟩]⟩]⟩] [] []).blocks,
      ∃ ls, b.lines = some ls ∧
        (extract_page_elements
            ⟨[⟨⟨0, 0, 1, 1⟩, some [⟨[⟨['a', '\t', 'b'], ['f'], 12, 0⟩]⟩]⟩], [], []⟩ 1).head!.content =
          pyReplaceChar '\t' [] (pyReplaceChar '\n' [' '] (pyStrip (block_text ls))) := by
  have hne : extract_page_elements
      ⟨[⟨⟨0, 0, 1, 1⟩, some [⟨[⟨['a', '\t', 'b'], ['f'], 12, 0⟩]⟩]⟩], [], []⟩ 1 ≠ [] := by
    decide
  have hmem := List.head!_mem_self hne
  have hfon : (extract_page_elements
      ⟨[⟨⟨0, 0, 1, 1⟩, some [⟨[⟨['a', '\t', 'b'], ['f'], 12, 0⟩]⟩]⟩], [], []⟩ 1).head!.font_info.isSome := by
    decide
  exact ⟨hmem, hfon, C4_text_content_normalization _ 1 _ hmem hfon⟩

/-- C8 (amended): within a page, `_extract_page_elements` emits text-block
elements in block order first, then image elements in their emitted order,
then table elements in their emitted order, with no re-sorting. (The list a
downstream consumer obtains from `DocumentStorage.get_document_elements` is,
however, re-sorted by page and then DESCENDING `y0` — see the
counterexample.) -/
theorem C8_emission_order (page : Page) (n : ℕ) :
    extract_page_elements page n =
      page.blocks.filterMap (text_block_element n) ++
        page.images.enum.map (fun p => image_element n p.1 p.2) ++
        page.tables.map (table_element n) :=
  extract_page_elements_eq page n

/-- C8 counterexample: two images emitted on the same page with ascending
`y0` come back from `get_document_elements` in the opposite order (the query
sorts by `position_y0 DESC`), so the downstream list is NOT the emitted
order. -/
theorem C8_counterexample :
    get_document_elements
        (extract_page_elements ⟨[], [⟨⟨0, 0, 1, 1⟩⟩, ⟨⟨0, 5, 1, 1⟩⟩], []⟩ 1) ≠
      extract_page_elements ⟨[], [⟨⟨0, 0, 1, 1⟩⟩, ⟨⟨0, 5, 1, 1⟩⟩], []⟩ 1 := by
  decide
